import Mathlib

/-!
Shallow embedding of the DuoTang word-curation scripts.

`filter_words.py` provides the Heuristic Lexical Classifier
(`is_profane`, `is_abstract_noun`, `should_filter`) over hardcoded
curated sets, and a partitioning loop in `main`.

`generate_nouns.py` provides the Taxonomy-Based Classifier
(`is_concrete_noun`) and the Word-Validity Filter (`is_valid_word`)
over an external lexical taxonomy (WordNet), modelled here as an
oracle: a function from a word to its list of noun senses, each sense
carrying its ancestor-category closure, its definition text and its
instance-hypernym list.
-/

namespace DuoTang

/-! ### Curated sets from `filter_words.py` -/

/-- Profanity list (basic common offensive words), `PROFANITY` in
`filter_words.py`. -/
def PROFANITY : List String := [
  "ass", "arse", "asshole", "bastard", "bitch", "bollocks", "crap", "cunt",
  "damn", "dick", "fuck", "fucking", "piss", "shit", "slut", "whore",
  "fisting", "floozie", "cock", "coitus"
]

/-- Abstract-suffix list, `ABSTRACT_SUFFIXES` in `filter_words.py`. -/
def ABSTRACT_SUFFIXES : List String := [
  "tion", "sion", "ment", "ness", "ity", "ty", "ance", "ence", "ship",
  "hood", "dom", "ism", "ization", "isation", "age", "ery", "ry", "cy"
]

/-- Curated abstract-word set, `ABSTRACT_WORDS` in `filter_words.py`
(a Python set literal; transcribed verbatim, duplicates included —
only membership is ever used). -/
def ABSTRACT_WORDS : List String := [
  "ability", "abnormality", "abolishment", "abortion", "abrogation", "absence",
  "abuse", "acceptance", "accomplishment", "accord", "accordance", "accountability",
  "accuracy", "accusation", "achievement", "acknowledgment", "activation", "activity",
  "adaptation", "addiction", "adjustment", "administration", "admission", "adoption",
  "advance", "advancement", "advantage", "advent", "advertising", "advice", "advocacy",
  "affair", "affect", "affinity", "aftermath", "agency", "aggression", "agony",
  "agreement", "aid", "aim", "alarm", "alert", "allegation", "allocation",
  "allowance", "amazement", "ambiguity", "ambition", "amendment", "amnesty",
  "amusement", "analgesia", "anarchy", "anger", "angina", "anguish", "animation",
  "announcement", "answer", "anticipation", "anxiety", "apology", "appeal",
  "appearance", "appellation", "appetite", "applause", "application", "appointment",
  "appreciation", "apprehension", "approach", "appropriation", "approval",
  "argument", "arithmetic", "arrangement", "array", "arrest", "arrival", "arrogance",
  "art", "ascend", "ascent", "aside", "aspect", "aspiration", "assassination",
  "assault", "assembly", "assertion", "assessment", "assignment", "assistance",
  "association", "assumption", "assurance", "asymmetry", "attempt", "attendance",
  "attention", "attenuation", "attitude", "attraction", "attribute", "authentication",
  "authenticity", "authorisation", "authority", "authorization", "autoimmunity",
  "automation", "availability", "avalanche", "average", "aversion", "award",
  "awareness", "awe", "backburn", "backdrop", "background", "backup", "bafflement",
  "bail", "balance", "ban", "bandwidth", "banking", "bankruptcy", "bargain",
  "barrage", "barrier", "baseline", "basics", "basis", "batting", "battle",
  "beat", "beating", "beauty", "beginning", "behalf", "behavior", "behaviour",
  "beheading", "behest", "behold", "being", "belief", "belligerency", "benefit",
  "best-seller", "bestseller", "bet", "betray", "betrayal", "betting", "beverage",
  "beyond", "bias", "bibliography", "bid", "bidding", "billing", "billion",
  "biography", "biology", "biopsy", "birth", "birthday", "bit", "bite", "bitter",
  "bitterness", "blackness", "blame", "blank", "blast", "bleeding", "blend",
  "blessing", "blight", "blindness", "bliss", "blow", "blue", "blunder", "blur",
  "blush", "boast", "boasting", "body", "boil", "bombing", "bond", "bonding",
  "bonus", "booking", "boolean", "boom", "boon", "boost", "border", "bore",
  "boredom", "borrowing", "bother", "bottom", "bottom-line", "bout", "boundary",
  "bout", "boycott", "boyhood", "bracket", "brag", "bragging", "brain",
  "brand", "bravery", "breach", "break", "breakdown", "breakfast", "breakpoint",
  "breakthrough", "breath", "breathing", "breed", "breeding", "breeze", "bribery",
  "brief", "briefing", "briefly", "brightness", "brilliance", "brilliant", "brink",
  "broadcast", "brotherhood", "browsing", "brunch", "brushing", "brutality",
  "bubble", "budget", "build", "building", "bulk", "bulletin", "bullying",
  "bump", "bunch", "bundle", "burden", "burial", "burn", "burn-out", "burning",
  "burst", "business", "bust", "bustle", "buy", "buyer", "buying", "buzz",
  "adulthood", "afternoon", "afterlife", "aftershock", "afterthought", "age",
  "boyhood", "century", "childhood", "dawn", "day", "daylight", "deadline",
  "decade", "delay", "duration", "dusk", "era", "eternity", "eve", "evening",
  "event", "forever", "fortnight", "future", "girlhood", "hour", "interval",
  "lifespan", "lifetime", "manhood", "midnight", "millennium", "minute", "moment",
  "month", "morning", "night", "nightfall", "nighttime", "noon", "past",
  "period", "present", "season", "second", "semester", "shift", "spell",
  "springtime", "summertime", "sunrise", "sunset", "teatime", "term", "time",
  "timeframe", "timeline", "tomorrow", "tonight", "twilight", "week", "weekend",
  "while", "wintertime", "year", "yesterday", "youth",
  "act", "action", "activation", "activity", "adaptation", "addition", "adjustment",
  "adoption", "advance", "advancement", "advertising", "advocacy", "allocation",
  "alteration", "amendment", "analysis", "animation", "announcement", "application",
  "approach", "appropriation", "arrangement", "arrest", "arrival", "ascent",
  "assassination", "assault", "assembly", "assessment", "assignment", "assist",
  "assistance", "association", "attack", "attainment", "attempt", "attendance",
  "attenuation", "authentication", "authorization", "automation", "backup",
  "banking", "bargain", "barrage", "battle", "beat", "beating", "beginning",
  "behavior", "behaviour", "beheading", "betrayal", "betting", "bid", "bidding",
  "billing", "birth", "bite", "blackmail", "blast", "bleeding", "blend", "blessing",
  "blight", "blink", "blow", "boast", "boasting", "boil", "bombing", "bonding",
  "booking", "boom", "boost", "bore", "borrowing", "bounce", "bout", "boycott",
  "bragging", "branding", "breach", "break", "breakdown", "breakthrough", "breath",
  "breathing", "breed", "breeding", "bribery", "broadcast", "browsing", "brushing",
  "build", "building", "bullying", "bump", "burn", "burning", "burst", "business",
  "buy", "buying", "buzz",
  "academics", "accompanist", "accountant", "achiever", "activist", "actor", "actress",
  "admin", "administrator", "adult", "adviser", "advocate", "agent", "aide",
  "airman", "alien", "allergist", "ally", "ambassador", "analyst", "anarchist",
  "ancestor", "angel", "anesthesiologist", "announcer", "antagonist", "anthropologist",
  "anybody", "anyone", "applicant", "archaeologist", "archer", "architect", "aristocrat",
  "artist", "assistant", "associate", "astronaut", "astronomer", "atheist", "athlete",
  "attendant", "attorney", "audience", "aunt", "author", "baby", "babe", "bachelor",
  "badger", "baker", "ballerina", "balloonist", "bandleader", "bandit", "banker",
  "barber", "bard", "baritone", "bartender", "bather", "batman", "beggar", "beginner",
  "believer", "beneficiary", "bidder", "billionaire", "biographer", "biologist",
  "blacksmith", "blogger", "bloke", "boarder", "boatman", "bodyguard", "bondsman",
  "bookkeeper", "boss", "bouncer", "boy", "boyfriend", "bride", "bridesmaid",
  "brigadier", "broadcaster", "broker", "brother", "brother-in-law", "buddy",
  "builder", "burglar", "businessman", "businesswoman", "butcher", "butler", "buyer",
  "bystander",
  "brotherhood", "citizenship", "comradeship", "companionship", "courtship",
  "fellowship", "fatherhood", "friendship", "kinship", "leadership", "membership",
  "motherhood", "ownership", "parenthood", "partnership", "relationship",
  "sisterhood", "sportsmanship", "stewardship", "apprenticeship", "dictatorship",
  "guardianship", "hardship", "internship", "kingship", "kinship", "lordship",
  "partnership", "readership", "scholarship", "sponsorship", "trusteeship",
  "workmanship"
]

/-- Abstract-keyword list, `ABSTRACT_KEYWORDS` in `filter_words.py`. -/
def ABSTRACT_KEYWORDS : List String := [
  "abundance", "amount", "capacity", "degree", "depth", "dimension", "distance",
  "extent", "height", "length", "level", "magnitude", "measure", "portion",
  "quantity", "ratio", "scale", "scope", "size", "total", "volume", "weight",
  "width",
  "condition", "situation", "state", "status", "circumstance", "position",
  "concept", "idea", "notion", "theory", "thought", "principle", "hypothesis",
  "philosophy", "ideology",
  "quality", "characteristic", "feature", "trait", "attribute", "property",
  "process", "procedure", "method", "system", "technique", "approach", "strategy",
  "law", "legislation", "regulation", "rule", "policy", "protocol", "statute",
  "analysis", "research", "study", "investigation", "examination", "evaluation",
  "assessment"
]

/-- The inline exception whitelist inside `is_abstract_noun` in
`filter_words.py` ("Some exceptions that are concrete despite suffix"). -/
def SUFFIX_EXCEPTIONS : List String := [
  "station", "nation", "ration", "portion", "motion",
  "lotion", "potion", "cushion", "fashion", "mansion",
  "passion", "session", "mission", "television",
  "prison", "poison", "bison", "melon", "lemon",
  "demon", "summon", "common", "salmon", "cotton",
  "button", "mutton", "mitten", "kitten", "garden",
  "warden", "burden", "golden", "wooden", "sudden"
]

/-! ### The Heuristic Lexical Classifier (`filter_words.py`) -/

/-- Python `w.lower()`: lowercase every character. (Equivalent to
`String.toLower`, restated over the character list so that it reduces
by kernel computation.) -/
def pyLower (w : String) : String := ⟨w.data.map Char.toLower⟩

/-- Python `w.endswith(sfx)` on strings: `sfx` is a suffix of `w`
as a character sequence. -/
def endsWithB (w sfx : String) : Bool := decide (sfx.data <:+ w.data)

/-- The suffix loop inside `is_abstract_noun`: iterate over the
suffix list; on a match, a whitelisted word `continue`s to the next
suffix, any other word makes the function return `True`; falling off
the loop yields `False`. -/
def suffixScan (word_lower : String) : List String → Bool
  | [] => false
  | sfx :: rest =>
    if endsWithB word_lower sfx then
      if word_lower ∈ SUFFIX_EXCEPTIONS then suffixScan word_lower rest
      else true
    else suffixScan word_lower rest

/-- `is_abstract_noun` from `filter_words.py`: direct membership in
`ABSTRACT_WORDS`, then in `ABSTRACT_KEYWORDS`, then (only when the
word is longer than 7 characters) the suffix loop. -/
def is_abstract_noun (word : String) : Bool :=
  let word_lower := pyLower word
  if word_lower ∈ ABSTRACT_WORDS then true
  else if word_lower ∈ ABSTRACT_KEYWORDS then true
  else if word.length > 7 then suffixScan word_lower ABSTRACT_SUFFIXES
  else false

/-- `is_profane` from `filter_words.py`. -/
def is_profane (word : String) : Bool := decide (pyLower word ∈ PROFANITY)

/-- `should_filter` from `filter_words.py`: profanity check first,
then the abstract-noun check. -/
def should_filter (word : String) : Bool :=
  if is_profane word then true
  else if is_abstract_noun word then true
  else false

/-- The partitioning loop of `main` in `filter_words.py`: each word
goes to `removed_words` when `should_filter` holds and to
`filtered_words` otherwise, preserving input order. Returns
(filtered_words, removed_words). -/
def partitionWords : List String → List String × List String
  | [] => ([], [])
  | w :: ws =>
    let p := partitionWords ws
    if should_filter w then (p.1, w :: p.2) else (w :: p.1, p.2)

/-! ### Taxonomy model for `generate_nouns.py` -/

/-- One WordNet noun sense (synset), as the code consumes it:
`hypernyms` is the union of category names over all hypernym paths
(what the loop in `is_concrete_noun` computes from
`synset.hypernym_paths()`), `definition` is `synset.definition()`, and
`instanceHypernyms` stands for `synset.instance_hypernyms()` (only its
emptiness is ever tested). -/
structure Sense where
  hypernyms : List String
  definition : String
  instanceHypernyms : List String
deriving DecidableEq, Repr

/-- The read-only taxonomy oracle: `sensesFor w` models
`wn.synsets(w, pos=wn.NOUN)`. -/
structure Taxonomy where
  sensesFor : String → List Sense

/-- `abstract_roots` from `is_concrete_noun` in `generate_nouns.py`. -/
def abstract_roots : List String := [
  "abstraction.n.06",
  "psychological_feature.n.01",
  "attribute.n.02",
  "state.n.04",
  "event.n.01",
  "act.n.02",
  "group.n.01",
  "measure.n.02",
  "time_period.n.01",
  "relation.n.01",
  "communication.n.02",
  "content.n.05",
  "possession.n.02",
  "social_group.n.01",
  "body_part.n.01",
  "internal_organ.n.01",
  "person.n.01",
  "human.n.01",
  "worker.n.01",
  "adult.n.01",
  "juvenile.n.01",
  "national.n.01",
  "native.n.03",
  "resident.n.01",
  "inhabitant.n.01",
  "professional.n.01",
  "skilled_worker.n.01",
  "organization.n.01",
  "establishment.n.01"
]

/-- `concrete_roots` from `is_concrete_noun` in `generate_nouns.py`. -/
def concrete_roots : List String := [
  "physical_entity.n.01",
  "object.n.01",
  "artifact.n.01",
  "natural_object.n.01",
  "living_thing.n.01",
  "organism.n.01",
  "whole.n.02"
]

/-- `abstract_keywords` (definition marker phrases) from
`is_concrete_noun` in `generate_nouns.py`. -/
def abstract_keywords : List String := [
  "concept of", "idea of", "theory of", "principle of",
  "state of being", "feeling of", "emotion of",
  "the act of", "the action of", "the process of",
  "the activity of", "the event of"
]

/-- `technical_keywords` from `is_concrete_noun` in
`generate_nouns.py`. -/
def technical_keywords : List String := [
  "drug used", "medicine", "pharmaceutical", "medication",
  "chemical compound", "enzyme", "hormone", "protein",
  "antibiotic", "trademark", "trade name", "brand name",
  "physics", "chemistry", "particle", "subatomic",
  "molecular", "atom", "ion", "transmits", "duplicator",
  "device for", "apparatus", "instrument for measuring",
  "amphetamine", "anesthetic", "crystalline", "sedative",
  "stimulant", "analgesic", "ester", "alkaloid", "steroid",
  "vitamin", "fossil", "extinct"
]

/-- `formal_suffixes` from `is_concrete_noun` in `generate_nouns.py`. -/
def formal_suffixes : List String := [
  "tion", "sion", "ism", "ity", "ness", "ment", "ence", "ance"
]

/-- Python `needle in hay` on strings: `needle` occurs as a contiguous
substring of `hay`. -/
def containsSubB (hay needle : String) : Bool := decide (needle.data <:+: hay.data)

/-! ### The Taxonomy-Based Classifier (`generate_nouns.py`) -/

/-- The body of the per-sense loop of `is_concrete_noun`: a sense
"qualifies" exactly when none of the `continue` branches fires, i.e.
its hypernyms intersect `concrete_roots`, do not intersect
`abstract_roots`, its lowercased definition contains no abstract
marker phrase and no technical keyword, and the suffix+reproduction
exclusion (word longer than 8 characters, a formal suffix, and a
reproduction/duplication/replication mention) does not fire. -/
def senseQualifies (word : String) (s : Sense) : Bool :=
  if !s.hypernyms.any (fun h => decide (h ∈ concrete_roots)) then false
  else if s.hypernyms.any (fun h => decide (h ∈ abstract_roots)) then false
  else
    let defText := pyLower s.definition
    if abstract_keywords.any (fun k => containsSubB defText k) then false
    else if technical_keywords.any (fun k => containsSubB defText k) then false
    else if word.length > 8 && formal_suffixes.any (fun sfx => endsWithB word sfx) then
      if containsSubB defText "reproduction" || containsSubB defText "duplication"
          || containsSubB defText "replication" then false
      else true
    else true

/-- The `for synset in synsets` loop of `is_concrete_noun`: return
`True` at the first qualifying sense, `False` after the loop. -/
def firstConcreteSense (word : String) : List Sense → Bool
  | [] => false
  | s :: rest => if senseQualifies word s then true else firstConcreteSense word rest

/-- `is_concrete_noun` from `generate_nouns.py`, parameterised by the
taxonomy oracle. -/
def is_concrete_noun (tax : Taxonomy) (word : String) : Bool :=
  let synsets := tax.sensesFor word
  if synsets.isEmpty then false
  else firstConcreteSense word synsets

/-- Python `word.isalpha()`: non-empty and every character alphabetic. -/
def pyIsAlpha (w : String) : Bool := !w.data.isEmpty && w.data.all Char.isAlpha

/-- `is_valid_word` from `generate_nouns.py`. Python's `word[0]`
raises `IndexError` on an empty string, so the indexing is embedded
fallibly through `List.head?`; `none` models that exception (it is
never reached, because `isalpha` fails first on the empty string). -/
def is_valid_word (tax : Taxonomy) (word : String) : Option Bool :=
  if !pyIsAlpha word then some false
  else
    match word.data.head? with
    | none => none
    | some c =>
      if c.isUpper then some false
      else
        let synsets := tax.sensesFor word
        if !synsets.isEmpty then
          if synsets.all (fun s => !s.instanceHypernyms.isEmpty) then some false
          else some true
        else some true

/-! ### Concrete taxonomy fixtures used in witnesses -/

/-- A taxonomy that knows no word at all. -/
def noTax : Taxonomy := ⟨fun _ => []⟩

/-- An abstract sense: rooted only under abstraction, so it fails the
concrete-root intersection. -/
def abstractSense : Sense :=
  ⟨["entity.n.01", "abstraction.n.06", "psychological_feature.n.01"],
   "a general idea", []⟩

/-- A physical-object sense that passes every exclusion. -/
def physicalSense : Sense :=
  ⟨["entity.n.01", "physical_entity.n.01", "object.n.01", "whole.n.02",
    "artifact.n.01"],
   "a hand tool with a heavy rigid head", []⟩

/-- A taxonomy in which "hammer" has one abstract sense followed by
one qualifying physical-object sense, and "chair" has a single
physical-object sense with no instance hypernyms. -/
def mixedTax : Taxonomy :=
  ⟨fun w =>
    if w = "hammer" then [abstractSense, physicalSense]
    else if w = "chair" then [physicalSense]
    else []⟩

/-! ### Helper lemmas -/

set_option maxRecDepth 10000

/-- A whitelisted word never triggers the suffix rule: every suffix
match `continue`s. -/
theorem suffixScan_eq_false_of_mem {wl : String} (h : wl ∈ SUFFIX_EXCEPTIONS) :
    ∀ sufs : List String, suffixScan wl sufs = false := by
  intro sufs
  induction sufs with
  | nil => rfl
  | cons s rest ih => simp [suffixScan, h, ih]

/-- A non-whitelisted word that matches some suffix makes the suffix
loop return `true`. -/
theorem suffixScan_eq_true_of_any {wl : String} (h : wl ∉ SUFFIX_EXCEPTIONS) :
    ∀ sufs : List String, sufs.any (fun s => endsWithB wl s) = true →
      suffixScan wl sufs = true := by
  intro sufs hany
  induction sufs with
  | nil => simp at hany
  | cons s rest ih =>
    simp only [List.any_cons, Bool.or_eq_true] at hany
    by_cases he : endsWithB wl s = true
    · simp [suffixScan, he, h]
    · have hrest : rest.any (fun x => endsWithB wl x) = true := by
        rcases hany with h' | h'
        · exact absurd h' he
        · exact h'
      simp [suffixScan, he, ih hrest]

/-- The sense loop of `is_concrete_noun` is the any-sense disjunction. -/
theorem firstConcreteSense_eq_any (word : String) :
    ∀ l : List Sense, firstConcreteSense word l = l.any (senseQualifies word) := by
  intro l
  induction l with
  | nil => rfl
  | cons s rest ih =>
    by_cases h : senseQualifies word s = true
    · simp [firstConcreteSense, h]
    · simp [firstConcreteSense, h, ih]

/-! ### Claim C1 (corrected) -/

/-- C1 counterexample: the claim says every word of the suffix
exception whitelist gets verdict Keep (`should_filter = false`), but
"burden" is whitelisted and is nevertheless filtered, because it is
also a member of `ABSTRACT_WORDS` and the direct-membership check runs
before the suffix rule. -/
theorem c1_whitelist_keep_counterexample :
    "burden" ∈ SUFFIX_EXCEPTIONS ∧ "burden" ∈ ABSTRACT_WORDS ∧
      is_abstract_noun "burden" = true ∧ should_filter "burden" = true := by
  decide

/-- C1 (amended): for every word in the suffix exception whitelist the
suffix-pattern rule itself never fires (the whitelist overrides the
suffix rule entirely), and `should_filter` returns Keep (`false`)
provided the lowercased word is not also in the direct `ABSTRACT_WORDS`
or `ABSTRACT_KEYWORDS` sets (which are checked earlier and are not
overridden by the whitelist; "burden" and "portion" are such words). -/
theorem c1_whitelist_overrides_suffix_rule :
    ∀ w, w ∈ SUFFIX_EXCEPTIONS →
      suffixScan (pyLower w) ABSTRACT_SUFFIXES = false ∧
      (pyLower w ∉ ABSTRACT_WORDS → pyLower w ∉ ABSTRACT_KEYWORDS →
        should_filter w = false) := by
  intro w hw
  have hlow : pyLower w = w := by
    have hall : SUFFIX_EXCEPTIONS.all (fun x => pyLower x == x) = true := by decide
    exact eq_of_beq (List.all_eq_true.mp hall w hw)
  have hpro : is_profane w = false := by
    have hall : SUFFIX_EXCEPTIONS.all (fun x => !is_profane x) = true := by decide
    simpa using List.all_eq_true.mp hall w hw
  have hscan : suffixScan (pyLower w) ABSTRACT_SUFFIXES = false := by
    rw [hlow]; exact suffixScan_eq_false_of_mem hw _
  refine ⟨hscan, fun h1 h2 => ?_⟩
  have habs : is_abstract_noun w = false := by
    simp only [is_abstract_noun]
    rw [if_neg h1, if_neg h2]
    by_cases hlen : w.length > 7
    · rw [if_pos hlen]; exact hscan
    · rw [if_neg hlen]
  simp [should_filter, hpro, habs]

/-- C1 amended witness at "station". -/
theorem c1_whitelist_overrides_suffix_rule_witness :
    suffixScan (pyLower "station") ABSTRACT_SUFFIXES = false ∧
      should_filter "station" = false :=
  ⟨(c1_whitelist_overrides_suffix_rule "station" (by decide)).1,
   (c1_whitelist_overrides_suffix_rule "station" (by decide)).2
     (by decide) (by decide)⟩

/-! ### Claim C4 -/

/-- C4: in the Heuristic Lexical Classifier the suffix-pattern rule
applies only to words longer than 7 characters: a word of length at
most 7 that is in neither direct abstract set is never classified
Abstract, a word longer than 7 characters whose lowercase form ends in
a listed abstract suffix and is not whitelisted always is, and in
particular "application" is classified Abstract. -/
theorem c4_suffix_rule_length_gate :
    (∀ w : String, w.length ≤ 7 → pyLower w ∉ ABSTRACT_WORDS →
      pyLower w ∉ ABSTRACT_KEYWORDS → is_abstract_noun w = false) ∧
    (∀ w : String, w.length > 7 →
      ABSTRACT_SUFFIXES.any (fun sfx => endsWithB (pyLower w) sfx) = true →
      pyLower w ∉ SUFFIX_EXCEPTIONS → is_abstract_noun w = true) ∧
    is_abstract_noun "application" = true := by
  refine ⟨fun w hlen h1 h2 => ?_, fun w hlen hany hwl => ?_, by decide⟩
  · simp only [is_abstract_noun]
    rw [if_neg h1, if_neg h2, if_neg (by omega)]
  · simp only [is_abstract_noun]
    by_cases h1 : pyLower w ∈ ABSTRACT_WORDS
    · rw [if_pos h1]
    · rw [if_neg h1]
      by_cases h2 : pyLower w ∈ ABSTRACT_KEYWORDS
      · rw [if_pos h2]
      · rw [if_neg h2, if_pos hlen]
        exact suffixScan_eq_true_of_any hwl _ hany

/-- C4 witness: "nation" has length 6, ends in "tion", yet is kept
(length gate), while the theorem's third conjunct already holds
unconditionally. -/
theorem c4_suffix_rule_length_gate_witness :
    is_abstract_noun "nation" = false :=
  c4_suffix_rule_length_gate.1 "nation" (by decide) (by decide) (by decide)

/-! ### Claim C5 -/

/-- C5: the heuristic checks run in the order profanity, direct
abstract set, abstract keywords, suffix pattern, first match winning:
every word of the profanity set is filtered with `is_profane` firing
(whatever the abstract checks would say), any profane word is filtered,
and a word matching no check at all is kept. -/
theorem c5_check_order :
    (∀ w, w ∈ PROFANITY → is_profane w = true ∧ should_filter w = true) ∧
    (∀ w, is_profane w = true → should_filter w = true) ∧
    (∀ w, is_profane w = false → is_abstract_noun w = false →
      should_filter w = false) := by
  refine ⟨fun w hw => ?_, fun w h => ?_, fun w h1 h2 => ?_⟩
  · have hall : PROFANITY.all (fun x => is_profane x) = true := by decide
    have h : is_profane w = true := by simpa using List.all_eq_true.mp hall w hw
    exact ⟨h, by simp [should_filter, h]⟩
  · simp [should_filter, h]
  · simp [should_filter, h1, h2]

/-- C5 witness: "fuck" is in the profanity set and is filtered as
profane. -/
theorem c5_check_order_witness :
    is_profane "fuck" = true ∧ should_filter "fuck" = true :=
  c5_check_order.1 "fuck" (by decide)

/-! ### Claim C7 -/

/-- C7: the orchestration loop of `main` partitions the input word
list: the kept output is exactly the in-order sublist of words with
`should_filter = false`, the removed output exactly the in-order
sublist of words with `should_filter = true`, both are sublists of the
input (so each preserves the input's relative order), and their
multiset union is the input — every word lands in exactly one output. -/
theorem c7_partition :
    ∀ ws : List String,
      (partitionWords ws).1 = ws.filter (fun w => !should_filter w) ∧
      (partitionWords ws).2 = ws.filter (fun w => should_filter w) ∧
      List.Sublist (partitionWords ws).1 ws ∧
      List.Sublist (partitionWords ws).2 ws ∧
      ((partitionWords ws).1 : Multiset String) +
        ((partitionWords ws).2 : Multiset String) = (ws : Multiset String) := by
  intro ws
  induction ws with
  | nil => exact ⟨rfl, rfl, List.Sublist.refl _, List.Sublist.refl _, rfl⟩
  | cons w ws ih =>
    obtain ⟨ih1, ih2, ih3, ih4, ih5⟩ := ih
    by_cases h : should_filter w = true
    · refine ⟨?_, ?_, ?_, ?_, ?_⟩
      · simp [partitionWords, h, ih1, List.filter_cons]
      · simp [partitionWords, h, ih2, List.filter_cons]
      · simpa [partitionWords, h] using ih3.cons w
      · simpa [partitionWords, h] using ih4.cons₂ w
      · show ((partitionWords (w :: ws)).1 : Multiset String) + _ = _
        simp only [partitionWords, h, if_pos]
        rw [← Multiset.cons_coe, Multiset.add_cons, ih5, Multiset.cons_coe]
    · replace h : should_filter w = false := by simpa using h
      refine ⟨?_, ?_, ?_, ?_, ?_⟩
      · simp [partitionWords, h, ih1, List.filter_cons]
      · simp [partitionWords, h, ih2, List.filter_cons]
      · simpa [partitionWords, h] using ih3.cons₂ w
      · simpa [partitionWords, h] using ih4.cons w
      · show ((partitionWords (w :: ws)).1 : Multiset String) + _ = _
        simp only [partitionWords, h, Bool.false_eq_true, if_neg, not_false_iff]
        rw [← Multiset.cons_coe, Multiset.cons_add, ih5, Multiset.cons_coe]

/-! ### Claim C2 -/

/-- C2: the Taxonomy-Based Classifier is an any-sense disjunction:
`is_concrete_noun` returns `true` exactly when some noun sense, in
taxonomy order, qualifies (its ancestor categories intersect the
concrete roots and avoid the abstract roots, and its definition passes
the abstract-marker, technical-keyword and suffix+reproduction
exclusions — the conjunction `senseQualifies`); in particular,
"hammer" in the fixture taxonomy, with an abstract first sense and a
qualifying physical-object second sense, classifies Concrete. -/
theorem c2_any_sense_disjunction :
    (∀ (tax : Taxonomy) (w : String),
      is_concrete_noun tax w = (tax.sensesFor w).any (senseQualifies w)) ∧
    senseQualifies "hammer" abstractSense = false ∧
    senseQualifies "hammer" physicalSense = true ∧
    is_concrete_noun mixedTax "hammer" = true := by
  refine ⟨fun tax w => ?_, by decide, by decide, by decide⟩
  cases hs : tax.sensesFor w with
  | nil => simp [is_concrete_noun, hs]
  | cons s rest => simp [is_concrete_noun, hs, firstConcreteSense_eq_any]

/-! ### Claim C6 -/

/-- C6: a word with no noun senses in the taxonomy gets verdict
Abstract (`false`) from the Taxonomy-Based Classifier; in the
embedding `is_concrete_noun` is a total function, so no error can be
raised on the way. -/
theorem c6_no_senses_is_abstract :
    ∀ (tax : Taxonomy) (w : String),
      tax.sensesFor w = [] → is_concrete_noun tax w = false := by
  intro tax w h
  simp [is_concrete_noun, h]

/-- C6 witness: the empty taxonomy knows no senses for "zebra", which
is therefore classified Abstract. -/
theorem c6_no_senses_is_abstract_witness :
    is_concrete_noun noTax "zebra" = false :=
  c6_no_senses_is_abstract noTax "zebra" rfl

/-! ### Claim C9 -/

/-- C9: classification is deterministic and idempotent — both
classifiers are pure functions of the word, the taxonomy snapshot and
the curated sets (which are fixed constants of the embedding), so two
invocations against the same snapshot return identical verdicts. -/
theorem c9_deterministic_idempotent :
    ∀ (tax tax2 : Taxonomy) (w : String), tax = tax2 →
      should_filter w = should_filter w ∧
      is_concrete_noun tax w = is_concrete_noun tax2 w := by
  intro tax tax2 w h
  subst h
  exact ⟨rfl, rfl⟩

/-- C9 witness: reclassifying "chair" against the same (empty)
taxonomy snapshot yields the same verdicts. -/
theorem c9_deterministic_idempotent_witness :
    should_filter "chair" = should_filter "chair" ∧
      is_concrete_noun noTax "chair" = is_concrete_noun noTax "chair" :=
  c9_deterministic_idempotent noTax noTax "chair" rfl

/-! ### Claim C10 -/

/-- C10: the Word-Validity Filter accepts tokens unknown to the
taxonomy — a non-empty all-alphabetic token whose first character is
not uppercase and that has zero noun senses is accepted; the
exclusively-named-instance rejection only applies when at least one
sense exists. -/
theorem c10_unknown_token_is_valid :
    ∀ (tax : Taxonomy) (w : String), pyIsAlpha w = true →
      (∃ c, w.data.head? = some c ∧ c.isUpper = false) →
      tax.sensesFor w = [] → is_valid_word tax w = some true := by
  intro tax w ha hc hs
  obtain ⟨c, hc1, hc2⟩ := hc
  simp [is_valid_word, ha, hc1, hc2, hs]

/-- C10 witness: "blorp" is alphabetic, lowercase-initial and unknown
to the empty taxonomy, and is accepted. -/
theorem c10_unknown_token_is_valid_witness :
    is_valid_word noTax "blorp" = some true :=
  c10_unknown_token_is_valid noTax "blorp" (by decide) ⟨'b', rfl, by decide⟩ rfl

/-! ### Claim C8 -/

/-- C8: for a syntactically valid lowercase alphabetic token no
classifier raises: `is_profane`, `is_abstract_noun`, `should_filter`
and `is_concrete_noun` are total functions of the embedding, the one
fallibly-embedded operation (`word[0]` inside `is_valid_word`) always
yields a value (`some` verdict) on such tokens, and missing taxonomy
information degrades to the exclude verdict rather than an error. -/
theorem c8_no_classifier_throws :
    ∀ (tax : Taxonomy) (w : String), w ≠ "" →
      w.data.all Char.isAlpha = true → w.data.all Char.isLower = true →
      (∃ b, is_valid_word tax w = some b) ∧
      (tax.sensesFor w = [] → is_concrete_noun tax w = false) := by
  intro tax w hne hal _
  have hdata : w.data ≠ [] := by
    intro h0
    exact hne (by cases w with | mk d => simp at h0; simp [h0])
  obtain ⟨c, cs, hw⟩ := List.exists_cons_of_ne_nil hdata
  have ha : pyIsAlpha w = true := by
    simp [pyIsAlpha, hw, hal]
    have := hal
    simp [hw, List.all_cons, Bool.and_eq_true] at this
    exact this
  constructor
  · simp only [is_valid_word, ha, Bool.not_true, Bool.false_eq_true, if_false, hw,
      List.head?_cons]
    by_cases hu : c.isUpper
    · exact ⟨false, by simp [hu]⟩
    · simp only [hu, if_false]
      by_cases hs : (tax.sensesFor w).isEmpty
      · exact ⟨true, by simp [hs]⟩
      · by_cases hp : (tax.sensesFor w).all fun s => !s.instanceHypernyms.isEmpty
        · exact ⟨false, by simp [hs, hp]⟩
        · exact ⟨true, by simp [hs, hp]⟩
  · intro hs
    simp [is_concrete_noun, hs]

/-- C8 witness: at the valid token "chair" and the empty taxonomy, the
validity filter returns a verdict and the taxonomy classifier returns
the exclude verdict. -/
theorem c8_no_classifier_throws_witness :
    (∃ b, is_valid_word noTax "chair" = some b) ∧
      is_concrete_noun noTax "chair" = false :=
  ⟨(c8_no_classifier_throws noTax "chair" (by decide) (by decide) (by decide)).1,
   (c8_no_classifier_throws noTax "chair" (by decide) (by decide) (by decide)).2 rfl⟩

/-! ### Claim C3 -/

/-- C3: the Word-Validity Filter accepts a token iff it is entirely
alphabetic (and non-empty, as Python's `isalpha` requires), its first
character is not uppercase, and it is not the case that it has
taxonomy noun senses all of which are named-instance senses; in
particular it rejects "Paris" (uppercase-initial) and "7up"
(non-alphabetic), and accepts "chair" provided not all of chair's
senses are named-instance senses. -/
theorem c3_validity_characterisation :
    (∀ (tax : Taxonomy) (w : String),
      is_valid_word tax w = some true ↔
        (pyIsAlpha w = true ∧
         (∃ c, w.data.head? = some c ∧ c.isUpper = false) ∧
         ¬(tax.sensesFor w ≠ [] ∧
            ∀ s ∈ tax.sensesFor w, s.instanceHypernyms ≠ []))) ∧
    (∀ tax : Taxonomy, is_valid_word tax "Paris" = some false) ∧
    (∀ tax : Taxonomy, is_valid_word tax "7up" = some false) ∧
    (∀ tax : Taxonomy,
      ¬(tax.sensesFor "chair" ≠ [] ∧
         ∀ s ∈ tax.sensesFor "chair", s.instanceHypernyms ≠ []) →
      is_valid_word tax "chair" = some true) := by
  have main : ∀ (tax : Taxonomy) (w : String),
      is_valid_word tax w = some true ↔
        (pyIsAlpha w = true ∧
         (∃ c, w.data.head? = some c ∧ c.isUpper = false) ∧
         ¬(tax.sensesFor w ≠ [] ∧
            ∀ s ∈ tax.sensesFor w, s.instanceHypernyms ≠ [])) := by
    intro tax w
    by_cases ha : pyIsAlpha w = true
    · have hdata : w.data ≠ [] := by
        intro h0
        simp [pyIsAlpha, h0] at ha
      obtain ⟨c, cs, hw⟩ := List.exists_cons_of_ne_nil hdata
      have hhead : w.data.head? = some c := by rw [hw]; rfl
      by_cases hu : c.isUpper = true
      · have hL : is_valid_word tax w = some false := by
          simp [is_valid_word, ha, hhead, hu]
        rw [hL]
        refine iff_of_false (by simp) ?_
        rintro ⟨-, ⟨c', hc', hcu⟩, -⟩
        rw [hhead] at hc'
        cases hc'
        rw [hu] at hcu
        exact Bool.noConfusion hcu
      · have hu' : c.isUpper = false := by simpa using hu
        by_cases hs : tax.sensesFor w = []
        · have hL : is_valid_word tax w = some true := by
            simp [is_valid_word, ha, hhead, hu', hs]
          rw [hL]
          exact iff_of_true rfl ⟨ha, ⟨c, hhead, hu'⟩, by simp [hs]⟩
        · have hsE : (tax.sensesFor w).isEmpty = false := by simpa using hs
          by_cases hp :
              (tax.sensesFor w).all (fun s => !s.instanceHypernyms.isEmpty) = true
          · have hL : is_valid_word tax w = some false := by
              simp [is_valid_word, ha, hhead, hu', hsE, hp]
            rw [hL]
            refine iff_of_false (by simp) ?_
            rintro ⟨-, -, hnot⟩
            refine hnot ⟨hs, fun s hsm => ?_⟩
            have := List.all_eq_true.mp hp s hsm
            simpa using this
          · have hp' :
                (tax.sensesFor w).all (fun s => !s.instanceHypernyms.isEmpty) = false := by
              simpa using hp
            have hL : is_valid_word tax w = some true := by
              simp [is_valid_word, ha, hhead, hu', hsE, hp']
            rw [hL]
            refine iff_of_true rfl ⟨ha, ⟨c, hhead, hu'⟩, ?_⟩
            rintro ⟨-, hall⟩
            obtain ⟨s, hsm, hsp⟩ := List.all_eq_false.mp hp'
            have hse : s.instanceHypernyms = [] := by
              simpa using hsp
            exact hall s hsm hse
    · have hb : pyIsAlpha w = false := by simpa using ha
      have hL : is_valid_word tax w = some false := by
        simp [is_valid_word, hb]
      rw [hL]
      refine iff_of_false (by simp) ?_
      rintro ⟨h1, -, -⟩
      rw [hb] at h1
      exact Bool.false_ne_true h1
  refine ⟨main, fun tax => rfl, fun tax => rfl, fun tax h => ?_⟩
  exact (main tax "chair").mpr ⟨by decide, ⟨'c', rfl, by decide⟩, h⟩

/-- C3 witness: the characterisation applied to "chair" in the fixture
taxonomy, whose single sense has no instance hypernyms. -/
theorem c3_validity_characterisation_witness :
    is_valid_word mixedTax "chair" = some true :=
  c3_validity_characterisation.2.2.2 mixedTax (by decide)

end DuoTang
